import Mathlib

/-!
Verification of the road-safety violation detector against its
natural-language specification.

The Python modules `spatial_logic.py`, `detect.py`, `paddle_ocr_reader.py`,
`rules.py`, `app.py`, `enhanced_pdf.py`, `video_processor.py` and
`worker.py` are shallowly embedded below.  Machine floats are modelled by
exact rationals (`ℚ`); bounding-box coordinates are integers, as produced
by `_to_bbox` (which applies Python's `int`).  Fallible computations are
modelled with `Option`.
-/

set_option maxRecDepth 4000

namespace RoadSafety

/-- A bounding box `(x1, y1, x2, y2)`, as in `spatial_logic.py`'s `BBox`.
Coordinates are integers: `detect.py`'s `_to_bbox` converts YOLO output with
Python `int`. -/
structure BBox where
  x1 : ℤ
  y1 : ℤ
  x2 : ℤ
  y2 : ℤ
deriving DecidableEq, Repr

/-- `bbox_center` from `spatial_logic.py`: the center point of a box
(`((x1+x2)/2, (y1+y2)/2)`, exact division modelled in `ℚ`). -/
def bbox_center (b : BBox) : ℚ × ℚ :=
  (((b.x1 : ℚ) + b.x2) / 2, ((b.y1 : ℚ) + b.y2) / 2)

/-- `point_inside` from `spatial_logic.py`:
`x1 <= x <= x2 and y1 <= y <= y2`. -/
def point_inside (b : BBox) (p : ℚ × ℚ) : Bool :=
  decide ((b.x1 : ℚ) ≤ p.1 ∧ p.1 ≤ b.x2 ∧ (b.y1 : ℚ) ≤ p.2 ∧ p.2 ≤ b.y2)

/-- `iou` from `spatial_logic.py`: intersection over union, with the
`1e-6` epsilon added to the union exactly as in the source. -/
def iou (a b : BBox) : ℚ :=
  let inter_w : ℤ := max 0 (min a.x2 b.x2 - max a.x1 b.x1)
  let inter_h : ℤ := max 0 (min a.y2 b.y2 - max a.y1 b.y1)
  let inter : ℤ := inter_w * inter_h
  let area_a : ℤ := (a.x2 - a.x1) * (a.y2 - a.y1)
  let area_b : ℤ := (b.x2 - b.x1) * (b.y2 - b.y1)
  let union : ℚ := (area_a : ℚ) + (area_b : ℚ) - (inter : ℚ) + 1 / 1000000
  (inter : ℚ) / union

/-- Truncation toward zero, the behaviour of Python's `int()` on a float. -/
def ratTrunc (q : ℚ) : ℤ :=
  if 0 ≤ q then ⌊q⌋ else ⌈q⌉

/-- `head_region` from `spatial_logic.py` with the default `top_ratio = 0.3`:
the top 30% of a person box (`(x1, y1, x2, int(y1 + 0.3 * h))`). -/
def head_region (person_bbox : BBox) : BBox :=
  let h : ℤ := person_bbox.y2 - person_bbox.y1
  ⟨person_bbox.x1, person_bbox.y1, person_bbox.x2,
    ratTrunc ((person_bbox.y1 : ℚ) + 3 / 10 * (h : ℚ))⟩

/-- `assign_riders_to_bike` from `spatial_logic.py`: the persons whose
center lies inside the bike box, in input order (the source's loop-append
is a filter). -/
def assign_riders_to_bike (bike_bbox : BBox) (person_bboxes : List BBox) :
    List BBox :=
  person_bboxes.filter (fun pb => point_inside bike_bbox (bbox_center pb))

/-- `has_helmet_for_person` from `spatial_logic.py`: the early-return loop
is `List.any`; a helmet counts iff its IoU with the head region is `> 0`. -/
def has_helmet_for_person (person_bbox : BBox) (helmet_bboxes : List BBox) :
    Bool :=
  helmet_bboxes.any (fun hb => decide (0 < iou (head_region person_bbox) hb))

/-- `count_riders_on_bike` from `spatial_logic.py`. -/
def count_riders_on_bike (bike_bbox : BBox) (person_bboxes : List BBox) :
    ℕ :=
  (assign_riders_to_bike bike_bbox person_bboxes).length

/-- A box is well formed when `x1 ≤ x2` and `y1 ≤ y2`. -/
def WellFormed (b : BBox) : Prop := b.x1 ≤ b.x2 ∧ b.y1 ≤ b.y2

instance (b : BBox) : Decidable (WellFormed b) := by
  unfold WellFormed; infer_instance

/-- The area of a box, `(x2 - x1) * (y2 - y1)`. -/
def boxArea (b : BBox) : ℤ := (b.x2 - b.x1) * (b.y2 - b.y1)

/-- Two boxes are disjoint when they do not overlap on the x-axis or on the
y-axis. -/
def DisjointBoxes (a b : BBox) : Prop :=
  a.x2 ≤ b.x1 ∨ b.x2 ≤ a.x1 ∨ a.y2 ≤ b.y1 ∨ b.y2 ≤ a.y1

instance (a b : BBox) : Decidable (DisjointBoxes a b) := by
  unfold DisjointBoxes; infer_instance

end RoadSafety

namespace RoadSafety

/-- C3: for every person box `P` and helmet-box list `H`,
`has_helmet_for_person P H` is true iff some helmet in `H` has IoU
strictly greater than `0` with `head_region P`; with the empty helmet list
it is always false. -/
theorem has_helmet_iff_overlap (P : BBox) (H : List BBox) :
    (has_helmet_for_person P H = true ↔
      ∃ hb ∈ H, 0 < iou (head_region P) hb) ∧
    has_helmet_for_person P [] = false := by
  constructor
  · simp [has_helmet_for_person, List.any_eq_true]
  · rfl

end RoadSafety

namespace RoadSafety

/-- C9: for well-formed boxes, `iou` is symmetric; `iou A A` is within
`1e-6` of `1` whenever `A` has positive area; disjoint boxes have IoU `0`;
and a zero-area box has IoU `0` with every box. -/
theorem iou_algebra (A B : BBox) (hA : WellFormed A) (hB : WellFormed B) :
    iou A B = iou B A ∧
    (0 < boxArea A → |iou A A - 1| ≤ 1 / 1000000) ∧
    (DisjointBoxes A B → iou A B = 0) ∧
    (boxArea A = 0 → iou A B = 0) := by
  refine ⟨?_, ?_, ?_, ?_⟩
  · simp only [iou]
    rw [min_comm A.x2 B.x2, max_comm A.x1 B.x1, min_comm A.y2 B.y2,
      max_comm A.y1 B.y1]
    ring_nf
  · intro hpos
    have hx : 0 ≤ A.x2 - A.x1 := by have := hA.1; omega
    have hy : 0 ≤ A.y2 - A.y1 := by have := hA.2; omega
    have hiou : iou A A = (boxArea A : ℚ) / ((boxArea A : ℚ) + 1 / 1000000) := by
      simp only [iou, min_self, max_self, boxArea, max_eq_right hx,
        max_eq_right hy]
      push_cast
      ring_nf
    have ha : (1 : ℚ) ≤ (boxArea A : ℚ) := by exact_mod_cast hpos
    have hden : (0 : ℚ) < (boxArea A : ℚ) + 1 / 1000000 := by linarith
    rw [hiou]
    have heq : (boxArea A : ℚ) / ((boxArea A : ℚ) + 1 / 1000000) - 1
        = -((1 / 1000000) / ((boxArea A : ℚ) + 1 / 1000000)) := by
      field_simp
    rw [heq, abs_neg, abs_of_nonneg (by positivity), div_le_iff₀ hden]
    nlinarith
  · intro h
    simp only [iou]
    rcases h with h | h | h | h
    · have hw : max 0 (min A.x2 B.x2 - max A.x1 B.x1) = 0 := by omega
      rw [hw]; push_cast; simp
    · have hw : max 0 (min A.x2 B.x2 - max A.x1 B.x1) = 0 := by omega
      rw [hw]; push_cast; simp
    · have hh : max 0 (min A.y2 B.y2 - max A.y1 B.y1) = 0 := by omega
      rw [hh]; push_cast; simp
    · have hh : max 0 (min A.y2 B.y2 - max A.y1 B.y1) = 0 := by omega
      rw [hh]; push_cast; simp
  · intro h
    simp only [iou, boxArea] at *
    have := hA.1
    have := hA.2
    rcases mul_eq_zero.mp h with h0 | h0
    · have hw : max 0 (min A.x2 B.x2 - max A.x1 B.x1) = 0 := by omega
      rw [hw]; push_cast; simp
    · have hh : max 0 (min A.y2 B.y2 - max A.y1 B.y1) = 0 := by omega
      rw [hh]; push_cast; simp

/-- Witness for `iou_algebra` at concrete boxes: a unit square away from a
far square is symmetric and has IoU `0`, and its self-IoU is within `1e-6`
of `1`. -/
theorem iou_algebra_witness :
    iou ⟨0, 0, 2, 2⟩ ⟨10, 10, 12, 12⟩ = iou ⟨10, 10, 12, 12⟩ ⟨0, 0, 2, 2⟩ ∧
    |iou ⟨0, 0, 2, 2⟩ ⟨0, 0, 2, 2⟩ - 1| ≤ 1 / 1000000 ∧
    iou ⟨0, 0, 2, 2⟩ ⟨10, 10, 12, 12⟩ = 0 ∧
    iou ⟨5, 5, 5, 9⟩ ⟨0, 0, 2, 2⟩ = 0 := by
  have h1 := iou_algebra ⟨0, 0, 2, 2⟩ ⟨10, 10, 12, 12⟩ (by decide) (by decide)
  have h2 := iou_algebra ⟨5, 5, 5, 9⟩ ⟨0, 0, 2, 2⟩ (by decide) (by decide)
  exact ⟨h1.1, h1.2.1 (by decide), h1.2.2.1 (by decide), h2.2.2.2 (by decide)⟩

end RoadSafety

namespace RoadSafety

/-- A violation record, mirroring the three dict shapes built in
`detect.py` `_yolo_advanced_detection`:
* `direct`: `{"type": "helmet_violation", "bbox", "confidence",
  "detected_directly": True}` (custom-model TanpaHelm detection);
* `triple`: `{"type": "triple_riding", "bike_bbox", "riders",
  "confidence"}`;
* `helmetSpatial`: `{"type": "helmet_violation", "rider_bbox",
  "bike_bbox", "confidence"}` (spatial reasoning). -/
inductive Violation where
  | direct (bbox : BBox) (confidence : ℚ)
  | triple (bike_bbox : BBox) (riders : ℕ) (confidence : ℚ)
  | helmetSpatial (rider_bbox : BBox) (bike_bbox : BBox) (confidence : ℚ)
deriving DecidableEq, Repr

/-- Whether a violation is a direct (TanpaHelm) one. -/
def Violation.isDirect : Violation → Bool
  | .direct _ _ => true
  | _ => false

/-- Whether a violation is a triple-riding one. -/
def Violation.isTriple : Violation → Bool
  | .triple _ _ _ => true
  | _ => false

/-- Whether a violation is a spatially-derived helmet violation. -/
def Violation.isHelmetSpatial : Violation → Bool
  | .helmetSpatial _ _ _ => true
  | _ => false

/-- A raw model detection: class name, box and confidence, as read off
`results.boxes` in `_yolo_advanced_detection`. -/
structure Detection where
  cls : String
  bbox : BBox
  conf : ℚ
deriving DecidableEq, Repr

/-- The per-class box lists and the direct-violation list accumulated by
`_yolo_advanced_detection`'s extraction loop. -/
structure FrameSets where
  persons : List BBox
  bikes : List BBox
  helmets : List BBox
  plates : List BBox
  directs : List Violation
deriving DecidableEq, Repr

/-- The empty `FrameSets` (the initial `bboxes` dict and empty
`direct_violations`). -/
def FrameSets.empty : FrameSets := ⟨[], [], [], [], []⟩

/-- Python's `str.lower()`, modelled character-wise (the class names routed
through it are ASCII). -/
def lowerStr (s : String) : String := String.mk (s.data.map Char.toLower)

/-- The extraction loop of `_yolo_advanced_detection` (detect.py lines
123-168): lower-case the class name, then route the box through the
custom-Indonesian or the standard COCO `if/elif` chain.  `tanpahelm`
boxes go both to the person set and to `direct_violations`. -/
def extractDetections (modelType : String) : List Detection → FrameSets
  | [] => FrameSets.empty
  | d :: ds =>
    let fs := extractDetections modelType ds
    let n := lowerStr d.cls
    if modelType = "custom_indonesian" then
      if n = "pengendara" then { fs with persons := d.bbox :: fs.persons }
      else if n = "helm" then { fs with helmets := d.bbox :: fs.helmets }
      else if n = "platnomor" then { fs with plates := d.bbox :: fs.plates }
      else if n = "tanpahelm" then
        { fs with persons := d.bbox :: fs.persons,
                  directs := Violation.direct d.bbox d.conf :: fs.directs }
      else fs
    else
      if n = "person" then { fs with persons := d.bbox :: fs.persons }
      else if n = "motorbike" ∨ n = "motorcycle" ∨ n = "bike" then
        { fs with bikes := d.bbox :: fs.bikes }
      else if n = "helmet" then { fs with helmets := d.bbox :: fs.helmets }
      else if n = "license_plate" ∨ n = "number_plate" ∨ n = "plate" then
        { fs with plates := d.bbox :: fs.plates }
      else fs

/-- The triple-riding check for one bike (detect.py lines 186-197): if at
least 3 riders are assigned to the bike, emit one `triple_riding`
violation with the observed rider count and confidence `0.90`. -/
def tripleCheck (bike_bbox : BBox) (persons : List BBox) : List Violation :=
  if 3 ≤ (assign_riders_to_bike bike_bbox persons).length then
    [Violation.triple bike_bbox
      (assign_riders_to_bike bike_bbox persons).length (9 / 10)]
  else []

/-- The spatial helmet check for one bike (detect.py lines 199-208): only
for non-custom models, each assigned rider without a helmet yields a
`helmet_violation` with confidence `0.85`. -/
def spatialHelmetCheck (modelType : String) (bike_bbox : BBox)
    (persons helmets : List BBox) : List Violation :=
  if modelType ≠ "custom_indonesian" then
    (assign_riders_to_bike bike_bbox persons).filterMap (fun rider_bbox =>
      if has_helmet_for_person rider_bbox helmets then none
      else some (Violation.helmetSpatial rider_bbox bike_bbox (17 / 20)))
  else []

/-- The violation-list construction of `_yolo_advanced_detection`
(detect.py lines 177-208): start empty, extend with the direct violations
when the model is the custom Indonesian one and there are any, then for
each bike in detection order run the triple-riding check followed by the
spatial helmet check. -/
def classifyViolations (modelType : String) (directs : List Violation)
    (bikes persons helmets : List BBox) : List Violation :=
  (if modelType = "custom_indonesian" ∧ directs ≠ [] then directs else []) ++
    (bikes.map (fun bike_bbox =>
      tripleCheck bike_bbox persons ++
        spatialHelmetCheck modelType bike_bbox persons helmets)).flatten

/-- The whole per-frame classification of `_yolo_advanced_detection`:
extract the per-class sets from the raw detections, then build the
violation list. -/
def detectFrame (modelType : String) (dets : List Detection) :
    List Violation :=
  let fs := extractDetections modelType dets
  classifyViolations modelType fs.directs fs.bikes fs.persons fs.helmets

end RoadSafety

namespace RoadSafety

/-- Whether a violation is a triple-riding violation for the given bike
box. -/
def isTripleFor (b : BBox) : Violation → Bool
  | .triple b' _ _ => b' == b
  | _ => false

theorem isTripleFor_of_isDirect {b : BBox} {v : Violation}
    (h : v.isDirect = true) : isTripleFor b v = false := by
  cases v <;> simp_all [Violation.isDirect, isTripleFor]

theorem isTripleFor_of_isHelmetSpatial {b : BBox} {v : Violation}
    (h : v.isHelmetSpatial = true) : isTripleFor b v = false := by
  cases v <;> simp_all [Violation.isHelmetSpatial, isTripleFor]

theorem mem_spatialHelmetCheck_shape {mt : String} {b' : BBox}
    {ps hs : List BBox} {v : Violation}
    (hv : v ∈ spatialHelmetCheck mt b' ps hs) :
    v.isHelmetSpatial = true := by
  unfold spatialHelmetCheck at hv
  split at hv
  · rcases List.mem_filterMap.mp hv with ⟨r, _, hr⟩
    split at hr
    · exact absurd hr (by simp)
    · cases hr
      rfl
  · simp at hv

theorem filter_tripleFor_spatial (b : BBox) (mt : String) (b' : BBox)
    (ps hs : List BBox) :
    (spatialHelmetCheck mt b' ps hs).filter (isTripleFor b) = [] := by
  refine List.filter_eq_nil_iff.mpr (fun v hv => ?_)
  simp [isTripleFor_of_isHelmetSpatial (mem_spatialHelmetCheck_shape hv)]

theorem filter_tripleFor_tripleCheck_self (b : BBox) (ps : List BBox) :
    (tripleCheck b ps).filter (isTripleFor b) = tripleCheck b ps := by
  unfold tripleCheck
  split
  · simp [isTripleFor]
  · simp

theorem filter_tripleFor_tripleCheck_ne {b b' : BBox} (h : b' ≠ b)
    (ps : List BBox) :
    (tripleCheck b' ps).filter (isTripleFor b) = [] := by
  unfold tripleCheck
  split
  · simp [isTripleFor, h]
  · simp

theorem filter_tripleFor_flatten_of_not_mem {b : BBox} {mt : String}
    {bikes ps hs : List BBox} (hb : b ∉ bikes) :
    ((bikes.map (fun bike =>
        tripleCheck bike ps ++ spatialHelmetCheck mt bike ps hs)).flatten).filter
      (isTripleFor b) = [] := by
  induction bikes with
  | nil => simp
  | cons b' rest ih =>
    have hne : b' ≠ b := fun h => hb (h ▸ List.mem_cons_self b' rest)
    have hrest : b ∉ rest := fun h => hb (List.mem_cons_of_mem _ h)
    simp only [List.map_cons, List.flatten_cons, List.filter_append,
      ih hrest, List.append_nil,
      filter_tripleFor_tripleCheck_ne hne, filter_tripleFor_spatial,
      List.nil_append]

/-- C1: for every vehicle box `b` among the frame's (distinct) vehicle
detections, the classifier output contains exactly one triple-riding
violation for `b` — carrying the observed rider count and confidence
`0.90` — when at least 3 person centers lie inside `b`, and none
otherwise.  The direct violations fed in are direct ones, as built by the
extraction loop. -/
theorem triple_riding_per_vehicle (modelType : String)
    (directs : List Violation) (bikes persons helmets : List BBox)
    (b : BBox) (hmem : b ∈ bikes) (hnodup : bikes.Nodup)
    (hdir : ∀ v ∈ directs, v.isDirect = true) :
    (classifyViolations modelType directs bikes persons helmets).filter
        (isTripleFor b) =
      (if 3 ≤ count_riders_on_bike b persons then
        [Violation.triple b (count_riders_on_bike b persons) (9 / 10)]
      else []) := by
  unfold classifyViolations
  rw [List.filter_append]
  have hdirpart :
      (if modelType = "custom_indonesian" ∧ directs ≠ [] then directs
        else []).filter (isTripleFor b) = [] := by
    split
    · exact List.filter_eq_nil_iff.mpr (fun v hv => by
        simp [isTripleFor_of_isDirect (hdir v hv)])
    · rfl
  rw [hdirpart, List.nil_append]
  induction bikes with
  | nil => exact absurd hmem (List.not_mem_nil b)
  | cons b' rest ih =>
    simp only [List.map_cons, List.flatten_cons, List.filter_append]
    rcases List.mem_cons.mp hmem with hbb | hbrest
    · subst hbb
    
      have hnotrest : b ∉ rest := (List.nodup_cons.mp hnodup).1
      rw [filter_tripleFor_tripleCheck_self, filter_tripleFor_spatial,
        filter_tripleFor_flatten_of_not_mem hnotrest]
      simp only [List.append_nil]
      unfold tripleCheck count_riders_on_bike
      rfl
    · have hne : b' ≠ b := by
        intro h
        exact (List.nodup_cons.mp hnodup).1 (h ▸ hbrest)
      rw [filter_tripleFor_tripleCheck_ne hne, filter_tripleFor_spatial,
        List.nil_append, List.nil_append]
      exact ih hbrest (List.nodup_cons.mp hnodup).2

/-- Witness for `triple_riding_per_vehicle`: a bike at `(0,0,10,10)` with
three person centers inside it yields exactly the one triple-riding
violation with rider count 3 and confidence `0.90`; with only two persons
it yields none. -/
theorem triple_riding_per_vehicle_witness :
    (classifyViolations "yolov8m" [] [⟨0, 0, 10, 10⟩]
        [⟨1, 1, 3, 3⟩, ⟨4, 4, 6, 6⟩, ⟨7, 7, 9, 9⟩]
        [⟨0, 0, 10, 10⟩, ⟨4, 4, 6, 6⟩, ⟨7, 7, 9, 9⟩]).filter
      (isTripleFor ⟨0, 0, 10, 10⟩) =
      [Violation.triple ⟨0, 0, 10, 10⟩ 3 (9 / 10)] ∧
    (classifyViolations "yolov8m" [] [⟨0, 0, 10, 10⟩]
        [⟨1, 1, 3, 3⟩, ⟨4, 4, 6, 6⟩] []).filter
      (isTripleFor ⟨0, 0, 10, 10⟩) = [] := by
  constructor
  · rw [triple_riding_per_vehicle "yolov8m" []
      [⟨0, 0, 10, 10⟩] [⟨1, 1, 3, 3⟩, ⟨4, 4, 6, 6⟩, ⟨7, 7, 9, 9⟩]
      [⟨0, 0, 10, 10⟩, ⟨4, 4, 6, 6⟩, ⟨7, 7, 9, 9⟩] ⟨0, 0, 10, 10⟩
      (by decide) (by decide) (by intro v hv; simp at hv)]
    with_unfolding_all decide
  · rw [triple_riding_per_vehicle "yolov8m" []
      [⟨0, 0, 10, 10⟩] [⟨1, 1, 3, 3⟩, ⟨4, 4, 6, 6⟩] []
      ⟨0, 0, 10, 10⟩ (by decide) (by decide)
      (by intro v hv; simp at hv)]
    with_unfolding_all decide

end RoadSafety

namespace RoadSafety

theorem custom_bikes_nil (dets : List Detection) :
    (extractDetections "custom_indonesian" dets).bikes = [] := by
  induction dets with
  | nil => rfl
  | cons d ds ih =>
    simp only [extractDetections]
    split_ifs <;> simp [ih]

theorem custom_directs_eq (dets : List Detection) :
    (extractDetections "custom_indonesian" dets).directs =
      (dets.filter (fun d => lowerStr d.cls == "tanpahelm")).map
        (fun d => Violation.direct d.bbox d.conf) := by
  induction dets with
  | nil => rfl
  | cons d ds ih =>
    simp only [extractDetections, List.filter_cons]
    split_ifs with h0 h1 h2 h3 h4 <;> simp_all

theorem extract_persons_cons_subset (mt : String) (e : Detection)
    (ds : List Detection) :
    (extractDetections mt ds).persons ⊆
      (extractDetections mt (e :: ds)).persons := by
  intro x hx
  simp only [extractDetections]
  split_ifs <;> first
    | exact hx
    | exact List.mem_cons_of_mem _ hx

theorem custom_tanpahelm_person {dets : List Detection} {d : Detection}
    (hd : d ∈ dets) (hcls : lowerStr d.cls = "tanpahelm") :
    d.bbox ∈ (extractDetections "custom_indonesian" dets).persons := by
  induction dets with
  | nil => simp at hd
  | cons e ds ih =>
    rcases List.mem_cons.mp hd with rfl | hmem
    · simp only [extractDetections, hcls]
      rw [if_pos trivial, if_neg (by decide), if_neg (by decide),
        if_neg (by decide), if_pos trivial]
      exact List.mem_cons_self _ _
    · exact extract_persons_cons_subset _ e ds (ih hmem)

/-- C2: in direct-violation (custom Indonesian) detector mode, the frame's
violation list is exactly one direct `helmet_violation` per `tanpahelm`
detection, in detection order, carrying that detection's own box and
confidence; every such box is also folded into the person set; and no
spatially-derived helmet violation is emitted. -/
theorem direct_violation_mode (dets : List Detection) :
    detectFrame "custom_indonesian" dets =
      (dets.filter (fun d => lowerStr d.cls == "tanpahelm")).map
        (fun d => Violation.direct d.bbox d.conf) ∧
    (∀ d ∈ dets, lowerStr d.cls = "tanpahelm" →
      d.bbox ∈ (extractDetections "custom_indonesian" dets).persons) ∧
    (detectFrame "custom_indonesian" dets).filter
      Violation.isHelmetSpatial = [] ∧
    (detectFrame "custom_indonesian" dets).length =
      (dets.filter (fun d => lowerStr d.cls == "tanpahelm")).length := by
  have hframe : detectFrame "custom_indonesian" dets =
      (extractDetections "custom_indonesian" dets).directs := by
    simp only [detectFrame, classifyViolations, custom_bikes_nil,
      List.map_nil, List.flatten_nil, List.append_nil]
    split_ifs with h
    · rfl
    · rcases not_and_or.mp h with h' | h'
      · exact absurd trivial h'
      · exact (not_not.mp h').symm
  rw [hframe, custom_directs_eq]
  refine ⟨rfl, fun d hd hcls => custom_tanpahelm_person hd hcls, ?_, by
    simp⟩
  refine List.filter_eq_nil_iff.mpr (fun v hv => ?_)
  rcases List.mem_map.mp hv with ⟨d, _, rfl⟩
  simp [Violation.isHelmetSpatial]

/-- Witness for `direct_violation_mode`: a custom-model frame with two
`TanpaHelm` detections and one `Helm` detection yields exactly the two
direct violations with the detections' own boxes and confidences, folds
their boxes into the person set, and emits no spatial helmet violation. -/
theorem direct_violation_mode_witness :
    detectFrame "custom_indonesian"
        [⟨"TanpaHelm", ⟨0, 0, 4, 8⟩, 4 / 5⟩, ⟨"Helm", ⟨1, 1, 2, 2⟩, 7 / 10⟩,
          ⟨"TanpaHelm", ⟨5, 0, 9, 8⟩, 9 / 10⟩] =
      [Violation.direct ⟨0, 0, 4, 8⟩ (4 / 5),
        Violation.direct ⟨5, 0, 9, 8⟩ (9 / 10)] ∧
    (⟨0, 0, 4, 8⟩ : BBox) ∈
      (extractDetections "custom_indonesian"
        [⟨"TanpaHelm", ⟨0, 0, 4, 8⟩, 4 / 5⟩, ⟨"Helm", ⟨1, 1, 2, 2⟩, 7 / 10⟩,
          ⟨"TanpaHelm", ⟨5, 0, 9, 8⟩, 9 / 10⟩]).persons ∧
    (detectFrame "custom_indonesian"
        [⟨"TanpaHelm", ⟨0, 0, 4, 8⟩, 4 / 5⟩, ⟨"Helm", ⟨1, 1, 2, 2⟩, 7 / 10⟩,
          ⟨"TanpaHelm", ⟨5, 0, 9, 8⟩, 9 / 10⟩]).filter
      Violation.isHelmetSpatial = [] := by
  have h := direct_violation_mode
    [⟨"TanpaHelm", ⟨0, 0, 4, 8⟩, 4 / 5⟩, ⟨"Helm", ⟨1, 1, 2, 2⟩, 7 / 10⟩,
      ⟨"TanpaHelm", ⟨5, 0, 9, 8⟩, 9 / 10⟩]
  refine ⟨h.1.trans (by with_unfolding_all decide), ?_, h.2.2.1⟩
  exact h.2.1 ⟨"TanpaHelm", ⟨0, 0, 4, 8⟩, 4 / 5⟩ (by simp)
    (by with_unfolding_all decide)

end RoadSafety

namespace RoadSafety

/-- The ordering asserted by the spec sentence: direct violations first,
then the triple-riding violations of all vehicles in vehicle-detection
order, then all spatially-derived helmet violations in the same nested
vehicle/rider order.  Written from the spec's words, to be compared with
`detectFrame`. -/
def claimOrderedViolations (modelType : String) (fs : FrameSets) :
    List Violation :=
  fs.directs ++
    (fs.bikes.map (fun b => tripleCheck b fs.persons)).flatten ++
    (fs.bikes.map (fun b =>
      spatialHelmetCheck modelType b fs.persons fs.helmets)).flatten

/-- The ordering the code actually produces: direct violations first, then
per vehicle in detection order that vehicle's triple-riding violation
followed by that vehicle's riders' helmet violations. -/
def amendedOrderedViolations (modelType : String) (fs : FrameSets) :
    List Violation :=
  fs.directs ++
    (fs.bikes.map (fun b =>
      tripleCheck b fs.persons ++
        spatialHelmetCheck modelType b fs.persons fs.helmets)).flatten

theorem noncustom_directs_nil {mt : String} (h : mt ≠ "custom_indonesian")
    (dets : List Detection) : (extractDetections mt dets).directs = [] := by
  induction dets with
  | nil => rfl
  | cons d ds ih =>
    simp only [extractDetections]
    rw [if_neg h]
    split_ifs <;> simp [ih]

theorem directs_part_eq (mt : String) (dets : List Detection) :
    (if mt = "custom_indonesian" ∧
        (extractDetections mt dets).directs ≠ [] then
      (extractDetections mt dets).directs
    else []) = (extractDetections mt dets).directs := by
  split_ifs with h
  · rfl
  · rcases not_and_or.mp h with h' | h'
    · rw [noncustom_directs_nil h']
    · exact (not_not.mp h').symm

/-- Counterexample to C4 as stated: with two bikes, each carrying three
helmetless riders, the code emits bike 1's helmet violations *before*
bike 2's triple-riding violation, so the output does not place all
triple-riding violations before all spatially-derived helmet
violations. -/
theorem violation_order_counterexample :
    detectFrame "yolov8m"
        [⟨"motorbike", ⟨0, 0, 10, 10⟩, 1 / 2⟩,
          ⟨"motorbike", ⟨100, 0, 110, 10⟩, 1 / 2⟩,
          ⟨"person", ⟨1, 1, 3, 3⟩, 1 / 2⟩, ⟨"person", ⟨4, 1, 6, 3⟩, 1 / 2⟩,
          ⟨"person", ⟨7, 1, 9, 3⟩, 1 / 2⟩,
          ⟨"person", ⟨101, 1, 103, 3⟩, 1 / 2⟩,
          ⟨"person", ⟨104, 1, 106, 3⟩, 1 / 2⟩,
          ⟨"person", ⟨107, 1, 109, 3⟩, 1 / 2⟩] ≠
      claimOrderedViolations "yolov8m"
        (extractDetections "yolov8m"
          [⟨"motorbike", ⟨0, 0, 10, 10⟩, 1 / 2⟩,
            ⟨"motorbike", ⟨100, 0, 110, 10⟩, 1 / 2⟩,
            ⟨"person", ⟨1, 1, 3, 3⟩, 1 / 2⟩, ⟨"person", ⟨4, 1, 6, 3⟩, 1 / 2⟩,
            ⟨"person", ⟨7, 1, 9, 3⟩, 1 / 2⟩,
            ⟨"person", ⟨101, 1, 103, 3⟩, 1 / 2⟩,
            ⟨"person", ⟨104, 1, 106, 3⟩, 1 / 2⟩,
            ⟨"person", ⟨107, 1, 109, 3⟩, 1 / 2⟩]) := by
  with_unfolding_all decide

/-- C4 amended: the classifier's output is the direct violations first,
then, per vehicle in vehicle-detection order, that vehicle's triple-riding
violation (if any) immediately followed by that vehicle's riders' helmet
violations in rider order — a later vehicle's triple-riding violation
comes after an earlier vehicle's helmet violations. -/
theorem violation_order_amended (mt : String) (dets : List Detection) :
    detectFrame mt dets =
      amendedOrderedViolations mt (extractDetections mt dets) := by
  simp only [detectFrame, classifyViolations, amendedOrderedViolations]
  rw [directs_part_eq]

end RoadSafety

namespace RoadSafety

/-- Python's `str.upper()`, modelled character-wise (plate text is
ASCII). -/
def upperStr (s : String) : String := String.mk (s.data.map Char.toUpper)

/-- Membership in `[A-Z]`. -/
def isUpperAlpha (c : Char) : Bool := decide ('A' ≤ c ∧ c ≤ 'Z')

/-- Membership in `[0-9]`. -/
def isDigitCh (c : Char) : Bool := decide ('0' ≤ c ∧ c ≤ '9')

/-- `re.sub(r'[^A-Z0-9]', '', text.upper())` from
`_normalize_plate_text`. -/
def cleanPlate (text : String) : String :=
  String.mk ((upperStr text).data.filter (fun c => isUpperAlpha c || isDigitCh c))

/-- The `[A-Z]{1,2}\d{4}` tail of the Indian plate grammar. -/
def plateTail : List Char → Bool
  | [e, d1, d2, d3, d4] =>
    isUpperAlpha e && isDigitCh d1 && isDigitCh d2 && isDigitCh d3 &&
      isDigitCh d4
  | [e, f, d1, d2, d3, d4] =>
    isUpperAlpha e && isUpperAlpha f && isDigitCh d1 && isDigitCh d2 &&
      isDigitCh d3 && isDigitCh d4
  | _ => false

/-- The anchored Indian plate grammar
`^[A-Z]{2}\d{2}[A-Z]{1,2}\d{4}$` from `_normalize_plate_text`. -/
def matchesIndianPlate : List Char → Bool
  | a :: b :: c :: d :: rest =>
    isUpperAlpha a && isUpperAlpha b && isDigitCh c && isDigitCh d &&
      plateTail rest
  | _ => false

/-- `_normalize_plate_text` from `paddle_ocr_reader.py`: empty input is
`UNKNOWN`; a grammar match is returned verbatim; otherwise length 8-10 is
returned as-is; otherwise `UNKNOWN` below length 5, else the cleaned
string. -/
def normalize_plate_text (text : String) : String :=
  if text = "" then "UNKNOWN"
  else
    let clean_text := cleanPlate text
    if matchesIndianPlate clean_text.data then clean_text
    else if 8 ≤ clean_text.length ∧ clean_text.length ≤ 10 then clean_text
    else if clean_text.length < 5 then "UNKNOWN"
    else clean_text

/-- C5: for every raw OCR string, the normalizer returns exactly the
claimed case analysis of the upper-cased, `[A-Z0-9]`-filtered string, and
in particular maps `"mh 01-ab 1234"` to `"MH01AB1234"`, `"X"` to
`"UNKNOWN"`, and the 15-character `"ABC123456789XYZ"` to itself. -/
theorem normalize_plate_cases (s : String) :
    normalize_plate_text s =
      (if matchesIndianPlate (cleanPlate s).data then cleanPlate s
       else if 8 ≤ (cleanPlate s).length ∧ (cleanPlate s).length ≤ 10 then
        cleanPlate s
       else if (cleanPlate s).length < 5 then "UNKNOWN"
       else cleanPlate s) ∧
    normalize_plate_text "mh 01-ab 1234" = "MH01AB1234" ∧
    normalize_plate_text "X" = "UNKNOWN" ∧
    normalize_plate_text "ABC123456789XYZ" = "ABC123456789XYZ" := by
  refine ⟨?_, by with_unfolding_all decide, by with_unfolding_all decide,
    by with_unfolding_all decide⟩
  by_cases h : s = ""
  · subst h
    with_unfolding_all decide
  · rw [normalize_plate_text, if_neg h]

end RoadSafety

namespace RoadSafety

/-- Modelled from the spec: `FIRST_OFFENSE_FINE` is imported by `rules.py`
from `configs/config.py`, which is not part of the repository snapshot;
the spec and the comment in `compute_fine` fix the first-offense amount at
₹500. -/
def FIRST_OFFENSE_FINE : ℕ := 500

/-- Modelled from the spec: `REPEAT_OFFENSE_FINE` is imported by
`rules.py` from `configs/config.py`, which is not part of the repository
snapshot; the spec and the comment in `compute_fine` fix the
repeat-offense amount at ₹1000. -/
def REPEAT_OFFENSE_FINE : ℕ := 1000

/-- `compute_fine` from `rules.py`: look up the count of previous
violations for the vehicle via the injected history (the `db` argument is
modelled by its `count_previous_violations` lookup); a count of 0 yields
the first-offense fine, anything else the repeat-offense fine. -/
def compute_fine (vehicle_no : String) (violation_type : String)
    (db : String → ℕ) : ℕ :=
  if db vehicle_no = 0 then FIRST_OFFENSE_FINE else REPEAT_OFFENSE_FINE

/-- C6: `compute_fine` returns the first-offense amount on a clean
history and the repeat-offense amount on any positive count; the result
does not depend on the violation type (so two calls with an unchanged
history agree, whatever types they pass). -/
theorem compute_fine_policy (v t t' : String) (db : String → ℕ) :
    (db v = 0 → compute_fine v t db = FIRST_OFFENSE_FINE) ∧
    (0 < db v → compute_fine v t db = REPEAT_OFFENSE_FINE) ∧
    compute_fine v t db = compute_fine v t' db := by
  refine ⟨fun h => by simp [compute_fine, h], fun h => ?_, rfl⟩
  simp [compute_fine, Nat.pos_iff_ne_zero.mp h]

/-- Witness for `compute_fine_policy`: a vehicle with no prior violations
pays the first-offense fine; after its count rises to 1 it pays the
repeat-offense fine, for a different violation type. -/
theorem compute_fine_policy_witness :
    compute_fine "TS09AB1234" "helmet_violation" (fun _ => 0) =
      FIRST_OFFENSE_FINE ∧
    compute_fine "TS09AB1234" "triple_riding" (fun _ => 1) =
      REPEAT_OFFENSE_FINE :=
  ⟨(compute_fine_policy "TS09AB1234" "helmet_violation" "x"
      (fun _ => 0)).1 rfl,
    (compute_fine_policy "TS09AB1234" "triple_riding" "x"
      (fun _ => 1)).2.1 (by decide)⟩

end RoadSafety

namespace RoadSafety

/-- The running-total accumulation of `app.py` `process_demo_image`
(lines 646-651): `+= 500` for a `helmet_violation`, `+= 1000` for
`triple_riding`, and nothing otherwise (the `if/elif` has no `else`).
A violation is represented by its `type` string, the only field the
loop reads. -/
def imageTotalFine : List String → ℕ
  | [] => 0
  | t :: ts =>
    (if t = "helmet_violation" then 500
     else if t = "triple_riding" then 1000
     else 0) + imageTotalFine ts

/-- The running-total accumulation of `app.py` `process_demo_video`
(lines 700-706): the same `if/elif` over every violation of every
timeline entry. -/
def videoTotalFine : List (List String) → ℕ
  | [] => 0
  | f :: fs => imageTotalFine f + videoTotalFine fs

/-- The `FINES` dict of `enhanced_pdf.py` with its `.get(v_type, 500)`
default: `helmet_violation → 500`, `no_helmet → 1000`,
`triple_riding → 1000`, anything else `500`. -/
def FINES_get (t : String) : ℕ :=
  if t = "helmet_violation" then 500
  else if t = "no_helmet" then 1000
  else if t = "triple_riding" then 1000
  else 500

/-- The total-fine accumulation of `enhanced_pdf.py`
`generate_enhanced_pdf` (lines 86-94). -/
def pdfTotalFine : List String → ℕ
  | [] => 0
  | t :: ts => FINES_get t + pdfTotalFine ts

/-- The flat per-type amount as the claim states it: 500 for a helmet
violation, 1000 for triple riding, 500 for every other type.  Written
from the spec's words, to be compared with the code's totals. -/
def claimedFlatFine (t : String) : ℕ :=
  if t = "helmet_violation" then 500
  else if t = "triple_riding" then 1000
  else 500

/-- The claimed running total: the sum of the flat per-type amounts. -/
def claimedTotal (vs : List String) : ℕ := (vs.map claimedFlatFine).sum

/-- The per-violation amount the running totals actually add: 0, not
500, for a type that is neither `helmet_violation` nor
`triple_riding`. -/
def amendedFlatFine (t : String) : ℕ :=
  if t = "helmet_violation" then 500
  else if t = "triple_riding" then 1000
  else 0

/-- Counterexample to C7 as stated: a frame whose single violation has an
unrecognized type contributes 0 to the running total, not the claimed
500-by-default. -/
theorem fine_total_counterexample :
    imageTotalFine ["wrong_side_driving"] ≠
      claimedTotal ["wrong_side_driving"] := by
  decide

/-- C7 amended: the image and video running totals sum 500 per helmet
violation and 1000 per triple riding and ignore (add 0 for) every other
type; the 500 default for unknown types applies only in the PDF
generator's total, whose table additionally maps `no_helmet` to 1000.
On violation lists containing only the two types the detector emits, the
running totals do equal the claimed flat-table sum. -/
theorem fine_totals_amended (vs : List String) (tl : List (List String)) :
    imageTotalFine vs = (vs.map amendedFlatFine).sum ∧
    videoTotalFine tl = (tl.map (fun f => (f.map amendedFlatFine).sum)).sum ∧
    pdfTotalFine vs = (vs.map FINES_get).sum ∧
    ((∀ t ∈ vs, t ≠ "no_helmet") → pdfTotalFine vs = claimedTotal vs) ∧
    ((∀ t ∈ vs, t = "helmet_violation" ∨ t = "triple_riding") →
      imageTotalFine vs = claimedTotal vs) := by
  refine ⟨?_, ?_, ?_, ?_, ?_⟩
  · induction vs with
    | nil => rfl
    | cons t ts ih => simp [imageTotalFine, amendedFlatFine, ih]
  · induction tl with
    | nil => rfl
    | cons f fs ih =>
      have hf : imageTotalFine f = (f.map amendedFlatFine).sum := by
        induction f with
        | nil => rfl
        | cons t ts ih' => simp [imageTotalFine, amendedFlatFine, ih']
      simp [videoTotalFine, hf, ih]
  · induction vs with
    | nil => rfl
    | cons t ts ih => simp [pdfTotalFine, ih]
  · intro hno
    induction vs with
    | nil => rfl
    | cons t ts ih =>
      have ht : t ≠ "no_helmet" := hno t (List.mem_cons_self t ts)
      have hts := ih (fun u hu => hno u (List.mem_cons_of_mem t hu))
      simp only [pdfTotalFine, claimedTotal, List.map_cons, List.sum_cons] at *
      rw [hts]
      congr 1
      simp [FINES_get, claimedFlatFine, ht]
  · intro hknown
    induction vs with
    | nil => rfl
    | cons t ts ih =>
      have ht := hknown t (List.mem_cons_self t ts)
      have hts := ih (fun u hu => hknown u (List.mem_cons_of_mem t hu))
      simp only [imageTotalFine, claimedTotal, List.map_cons,
        List.sum_cons] at *
      rw [hts]
      congr 1
      rcases ht with rfl | rfl <;> rfl

/-- Witness for `fine_totals_amended`: one helmet violation and one
triple riding total 1500 in the running total, matching the flat table;
the PDF total on the same list is also 1500. -/
theorem fine_totals_amended_witness :
    imageTotalFine ["helmet_violation", "triple_riding"] =
      claimedTotal ["helmet_violation", "triple_riding"] ∧
    pdfTotalFine ["helmet_violation", "triple_riding"] =
      claimedTotal ["helmet_violation", "triple_riding"] ∧
    videoTotalFine [["helmet_violation"], ["triple_riding"]] =
      ([["helmet_violation"], ["triple_riding"]].map
        (fun f => (f.map amendedFlatFine).sum)).sum := by
  have h := fine_totals_amended ["helmet_violation", "triple_riding"]
    [["helmet_violation"], ["triple_riding"]]
  exact ⟨h.2.2.2.2 (by decide), h.2.2.2.1 (by decide), h.2.1⟩

end RoadSafety

namespace RoadSafety

/-- `timestamp_sec` from `video_processor.py` line 80:
`frame_idx / fps if fps > 0 else frame_idx`.  `fps` is
`int(cap.get(cv2.CAP_PROP_FPS))`; the division is exact in the model. -/
def videoTimestamp (fps : ℤ) (frame_idx : ℕ) : ℚ :=
  if 0 < fps then (frame_idx : ℚ) / (fps : ℚ) else (frame_idx : ℚ)

/-- `timestamp` from `worker.py` line 69: `frame_count / fps` with no
guard.  `fps` is the float `cap.get(cv2.CAP_PROP_FPS)` (0.0 when
unreported); Python float division by zero raises `ZeroDivisionError`,
modelled as `none`. -/
def workerTimestamp (fps : ℚ) (frame_count : ℕ) : Option ℚ :=
  if fps = 0 then none else some ((frame_count : ℚ) / fps)

/-- Counterexample to C8 as stated: `worker.py`'s timestamp computation
fails outright (raises `ZeroDivisionError`) at fps 0 instead of falling
back to the frame index. -/
theorem frame_timestamp_counterexample :
    workerTimestamp 0 30 = none ∧ workerTimestamp 0 30 ≠ some 30 := by
  refine ⟨by simp [workerTimestamp], by simp [workerTimestamp]⟩

/-- C8 amended: in `video_processor.py` the timestamp is
`frameIndex / fps` for positive fps and falls back to the frame index for
zero-or-unreported (or negative) fps, never failing; in `worker.py` the
timestamp is `frameCount / fps` whenever fps is nonzero but the
computation fails when the reported fps is 0. -/
theorem frame_timestamp_amended (fps : ℤ) (fpsq : ℚ) (i n : ℕ) :
    (0 < fps → videoTimestamp fps i = (i : ℚ) / (fps : ℚ)) ∧
    (fps ≤ 0 → videoTimestamp fps i = (i : ℚ)) ∧
    (fpsq ≠ 0 → workerTimestamp fpsq n = some ((n : ℚ) / fpsq)) ∧
    workerTimestamp 0 n = none := by
  refine ⟨fun h => by simp [videoTimestamp, h],
    fun h => by simp [videoTimestamp, not_lt.mpr h],
    fun h => by simp [workerTimestamp, h],
    by simp [workerTimestamp]⟩

/-- Witness for `frame_timestamp_amended`: at 30 fps, sampled frame 60 is
at 2 seconds in both pipelines; at fps 0 the video processor falls back
to the frame index and the worker fails. -/
theorem frame_timestamp_amended_witness :
    videoTimestamp 30 60 = (60 : ℚ) / 30 ∧
    videoTimestamp 0 60 = 60 ∧
    workerTimestamp 30 60 = some ((60 : ℚ) / 30) ∧
    workerTimestamp 0 60 = none := by
  have h := frame_timestamp_amended 30 30 60 60
  have h0 := frame_timestamp_amended 0 30 60 60
  exact ⟨h.1 (by norm_num), h0.2.1 (by norm_num),
    h.2.2.1 (by norm_num), h.2.2.2⟩

end RoadSafety

namespace RoadSafety

/-- Value of a hexadecimal digit character (Python `int(_, 16)` accepts
both cases; MD5 hexdigests are lowercase). -/
def hexVal (c : Char) : ℕ :=
  if '0' ≤ c ∧ c ≤ '9' then c.toNat - 48
  else if 'a' ≤ c ∧ c ≤ 'f' then c.toNat - 87
  else if 'A' ≤ c ∧ c ≤ 'F' then c.toNat - 55
  else 0

/-- Python `int(s, 16)` on a two-character hex slice. -/
def hex2 (c1 c2 : Char) : ℕ := 16 * hexVal c1 + hexVal c2

/-- Python `int(s, 16)` on a four-character hex slice. -/
def hex4 (c1 c2 c3 c4 : Char) : ℕ :=
  4096 * hexVal c1 + 256 * hexVal c2 + 16 * hexVal c3 + hexVal c4

/-- The `state_codes` list of `app.py` `process_demo_image`. -/
def state_codes : List String :=
  ["AP", "TN", "KA", "MH", "DL", "UP", "WB", "GJ"]

/-- A decimal digit character; `n % 10` mirrors the bounded values fed to
`%02d`/`%04d` formatting. -/
def digitChar (n : ℕ) : Char := Char.ofNat (48 + n % 10)

/-- Python `f"{n:02d}"` for the district value, which lies in `1..50`. -/
def pad2 (n : ℕ) : String := String.mk [digitChar (n / 10), digitChar n]

/-- Python `f"{n:04d}"` for the plate number, which lies in `0..9999`. -/
def pad4 (n : ℕ) : String :=
  String.mk [digitChar (n / 1000), digitChar (n / 100), digitChar (n / 10),
    digitChar n]

/-- The synthetic-plate construction of `app.py` `process_demo_image`
(lines 636-643), as a function of the MD5 hex digest of
`str(image.shape)`: state code from hex digits 0-1, district from 2-3,
two letters from 4-7, four digits from 8-11.  An MD5 hexdigest always has
32 characters, so the short-list branch is unreachable. -/
def syntheticPlate (digest : List Char) : String :=
  match digest with
  | h0 :: h1 :: h2 :: h3 :: h4 :: h5 :: h6 :: h7 :: h8 :: h9 :: h10 ::
      h11 :: _ =>
    let state := state_codes.getD (hex2 h0 h1 % state_codes.length) "AP"
    let district := pad2 (hex2 h2 h3 % 50 + 1)
    let letters := String.mk [Char.ofNat (65 + hex2 h4 h5 % 26),
      Char.ofNat (65 + hex2 h6 h7 % 26)]
    let numbers := pad4 (hex4 h8 h9 h10 h11 % 10000)
    state ++ district ++ letters ++ numbers
  | _ => ""

/-- The plate substitution of `app.py` `process_demo_image` (lines
634-643): when OCR yielded `"UNKNOWN"` and violations were found, report
the synthetic plate; otherwise report the OCR plate unchanged. -/
def demoImagePlate (plate_number : String) (violations : List Violation)
    (digest : List Char) : String :=
  if plate_number = "UNKNOWN" ∧ violations ≠ [] then syntheticPlate digest
  else plate_number

theorem isDigitCh_digitChar (m : ℕ) : isDigitCh (digitChar m) = true := by
  unfold digitChar
  set r := m % 10 with hr
  have h : r < 10 := Nat.mod_lt _ (by norm_num)
  interval_cases r <;> decide

theorem isUpperAlpha_letterChar (k : ℕ) :
    isUpperAlpha (Char.ofNat (65 + k % 26)) = true := by
  set r := k % 26 with hr
  have h : r < 26 := Nat.mod_lt _ (by norm_num)
  interval_cases r <;> decide

end RoadSafety

namespace RoadSafety

theorem state_code_data (i : ℕ) : ∃ a b,
    (state_codes.getD (i % state_codes.length) "AP").data = [a, b] ∧
    isUpperAlpha a = true ∧ isUpperAlpha b = true := by
  set r := i % state_codes.length with hr
  have h8 : r < 8 := by
    rw [hr]
    exact Nat.mod_lt _ (by decide)
  interval_cases r <;> exact ⟨_, _, rfl, by decide, by decide⟩

theorem matchesIndianPlate_synth (a b : Char) (ha : isUpperAlpha a = true)
    (hb : isUpperAlpha b = true) (x k1 k2 y : ℕ) :
    matchesIndianPlate ([a, b] ++ (pad2 x).data ++
      [Char.ofNat (65 + k1 % 26), Char.ofNat (65 + k2 % 26)] ++
      (pad4 y).data) = true := by
  simp [pad2, pad4, matchesIndianPlate, plateTail, ha, hb,
    isDigitCh_digitChar, isUpperAlpha_letterChar]

end RoadSafety

namespace RoadSafety

/-- C10: whenever at least one violation was found and OCR yielded
`"UNKNOWN"`, the reported plate is the synthetic plate built from the MD5
hex digest of the image's dimensions; it is 10 characters in the Indian
plate format (two letters, two digits, two letters, four digits), never
`"UNKNOWN"`; and it depends only on the digest, so two violating images
with the same dimensions report the same plate. -/
theorem synthetic_plate_on_unknown (plate_number : String)
    (violations : List Violation)
    (c0 c1 c2 c3 c4 c5 c6 c7 c8 c9 c10 c11 : Char) (rest : List Char)
    (hp : plate_number = "UNKNOWN") (hv : violations ≠ []) :
    demoImagePlate plate_number violations
        (c0 :: c1 :: c2 :: c3 :: c4 :: c5 :: c6 :: c7 :: c8 :: c9 :: c10 ::
          c11 :: rest) =
      syntheticPlate
        (c0 :: c1 :: c2 :: c3 :: c4 :: c5 :: c6 :: c7 :: c8 :: c9 :: c10 ::
          c11 :: rest) ∧
    (syntheticPlate
        (c0 :: c1 :: c2 :: c3 :: c4 :: c5 :: c6 :: c7 :: c8 :: c9 :: c10 ::
          c11 :: rest)).length = 10 ∧
    matchesIndianPlate
      (syntheticPlate
        (c0 :: c1 :: c2 :: c3 :: c4 :: c5 :: c6 :: c7 :: c8 :: c9 :: c10 ::
          c11 :: rest)).data = true ∧
    demoImagePlate plate_number violations
        (c0 :: c1 :: c2 :: c3 :: c4 :: c5 :: c6 :: c7 :: c8 :: c9 :: c10 ::
          c11 :: rest) ≠ "UNKNOWN" ∧
    (∀ violations' : List Violation, violations' ≠ [] →
      demoImagePlate plate_number violations'
          (c0 :: c1 :: c2 :: c3 :: c4 :: c5 :: c6 :: c7 :: c8 :: c9 ::
            c10 :: c11 :: rest) =
        demoImagePlate plate_number violations
          (c0 :: c1 :: c2 :: c3 :: c4 :: c5 :: c6 :: c7 :: c8 :: c9 ::
            c10 :: c11 :: rest)) := by
  obtain ⟨a, b, hdata, ha, hb⟩ := state_code_data (hex2 c0 c1)
  have hplate : demoImagePlate plate_number violations
      (c0 :: c1 :: c2 :: c3 :: c4 :: c5 :: c6 :: c7 :: c8 :: c9 :: c10 ::
        c11 :: rest) =
      syntheticPlate
        (c0 :: c1 :: c2 :: c3 :: c4 :: c5 :: c6 :: c7 :: c8 :: c9 :: c10 ::
          c11 :: rest) := by
    simp [demoImagePlate, hp, hv]
  have hsdata : (syntheticPlate
      (c0 :: c1 :: c2 :: c3 :: c4 :: c5 :: c6 :: c7 :: c8 :: c9 :: c10 ::
        c11 :: rest)).data =
      [a, b] ++ (pad2 (hex2 c2 c3 % 50 + 1)).data ++
        [Char.ofNat (65 + hex2 c4 c5 % 26), Char.ofNat (65 + hex2 c6 c7 % 26)] ++
        (pad4 (hex4 c8 c9 c10 c11 % 10000)).data := by
    simp only [syntheticPlate, String.data_append, hdata]
  have hmatch := matchesIndianPlate_synth a b ha hb (hex2 c2 c3 % 50 + 1)
    (hex2 c4 c5) (hex2 c6 c7) (hex4 c8 c9 c10 c11 % 10000)
  have hlen : (syntheticPlate
      (c0 :: c1 :: c2 :: c3 :: c4 :: c5 :: c6 :: c7 :: c8 :: c9 :: c10 ::
        c11 :: rest)).length = 10 := by
    rw [String.length, hsdata]
    simp [pad2, pad4]
  refine ⟨hplate, hlen, by rw [hsdata]; exact hmatch, ?_,
    fun violations' hv' => by simp [demoImagePlate, hp, hv, hv']⟩
  rw [hplate]
  intro hcontra
  rw [hcontra] at hlen
  exact absurd hlen (by decide)

/-- Witness for `synthetic_plate_on_unknown` at the real MD5 hex digest of
`str((480, 640, 3))`, the shape string of a 640x480 colour image
(`0a63dfe0bc366e9d4f0e2b781d8b2eea`): the reported plate is the synthetic
one and is not `"UNKNOWN"`. -/
theorem synthetic_plate_on_unknown_witness :
    demoImagePlate "UNKNOWN" [Violation.direct ⟨0, 0, 1, 1⟩ (1 / 2)]
        ['0', 'a', '6', '3', 'd', 'f', 'e', '0', 'b', 'c', '3', '6', '6',
          'e', '9', 'd', '4', 'f', '0', 'e', '2', 'b', '7', '8', '1', 'd',
          '8', 'b', '2', 'e', 'e', 'a'] =
      syntheticPlate
        ['0', 'a', '6', '3', 'd', 'f', 'e', '0', 'b', 'c', '3', '6', '6',
          'e', '9', 'd', '4', 'f', '0', 'e', '2', 'b', '7', '8', '1', 'd',
          '8', 'b', '2', 'e', 'e', 'a'] ∧
    demoImagePlate "UNKNOWN" [Violation.direct ⟨0, 0, 1, 1⟩ (1 / 2)]
        ['0', 'a', '6', '3', 'd', 'f', 'e', '0', 'b', 'c', '3', '6', '6',
          'e', '9', 'd', '4', 'f', '0', 'e', '2', 'b', '7', '8', '1', 'd',
          '8', 'b', '2', 'e', 'e', 'a'] ≠ "UNKNOWN" := by
  have h := synthetic_plate_on_unknown "UNKNOWN"
    [Violation.direct ⟨0, 0, 1, 1⟩ (1 / 2)]
    '0' 'a' '6' '3' 'd' 'f' 'e' '0' 'b' 'c' '3' '6'
    ['6', 'e', '9', 'd', '4', 'f', '0', 'e', '2', 'b', '7', '8', '1', 'd',
      '8', 'b', '2', 'e', 'e', 'a']
    rfl (by simp)
  exact ⟨h.1, h.2.2.2.1⟩

end RoadSafety
